import Mathlib

/-
Verification development for the project_silence intent/settlement engine.

The engine is duplicated across two host implementations; both are embedded
shallowly here:

* `near_*` definitions embed the NEAR host contract
  (src/silence-near-contracts/silence-bridge/src/lib.rs).  Its public
  mutating methods panic on a failed `assert!`; a panic aborts the call with
  no state change, so every method is embedded as a function returning
  `Except String (NearState × List Transfer)` whose `.error` carries the
  assert message, and the transaction-level `nearStep` keeps the old state
  on error.  `u128`/`u64` quantities are modelled as `Nat` (all additions in
  the runs considered stay far below the machine widths); the `u32`
  reputation score keeps its wrap-around `% 2^32` explicit because its
  bounds are the subject of a claim.  NEAR `Promise` transfers are recorded
  as a list of `(recipient, yoctoNEAR amount)` pairs; a promise is only
  scheduled when the call succeeds.

* `sol_*` definitions embed the Solana/Anchor host
  (src/programs/project_silence/src/lib.rs).  Anchor account constraints
  that duplicate in-body `require!` checks are represented once; `Pubkey`
  and `[u8; 32]` values are abstracted as `Nat`; `i64` timestamps are `Int`.
  The PDA seed constraint ties the `solver` account to the signing
  `solver_authority`, so the functions receive the caller's solver record
  directly.  `bump` fields (PDA mechanics) are not part of the logical
  state and are omitted.

* `calculate_reputation` embeds the Arcium encrypted instruction of the same
  name (src/encrypted-ixs/src/lib.rs).  The source's `as u32` truncation
  casts and its u32/u128 operation widths are kept explicit (`u32` /
  `% 2^128`); the one case the source leaves to a runtime abort — the u32
  division whose truncated divisor is zero although the u64 guard passed —
  is represented by Lean's `x / 0 = 0` convention and excluded from every
  theorem's domain.
-/

/-- Supported blockchain networks (both hosts declare the same three). -/
inductive Chain where
  | Near
  | Solana
  | Zcash
deriving Repr, DecidableEq

/-- Intent status lifecycle (identical in both hosts). -/
inductive IntentStatus where
  | Created
  | Matched
  | Executing
  | Executed
  | Settling
  | Settled
  | Failed
  | Disputed
deriving Repr, DecidableEq

/-- NEAR host: crosschain transfer intent (struct `Intent`). -/
structure NearIntent where
  intent_id : String
  creator : String
  source_chain : Chain
  destination_chain : Chain
  source_amount : Nat
  destination_amount : Nat
  source_token : String
  destination_token : String
  recipient : String
  is_shielded : Bool
  status : IntentStatus
  solver : Option String
  created_at : Nat
  expires_at : Nat
  executed_at : Option Nat
  source_tx_hash : Option String
  destination_tx_hash : Option String
  privacy_proof : Option String
deriving Repr, DecidableEq

/-- NEAR host: solver entity (struct `Solver`). -/
structure NearSolver where
  solver_id : String
  supported_chains : List Chain
  stake : Nat
  reputation_score : Nat
  total_intents_executed : Nat
  successful_intents : Nat
  failed_intents : Nat
  total_volume : Nat
  is_active : Bool
  registered_at : Nat
deriving Repr, DecidableEq

/-- NEAR host: contract state (`SilenceBridgeRegistry`).  The persistent
maps are modelled as functions to `Option`/`List`; `matches` is never
written by any method and is omitted. -/
structure NearState where
  intents : String → Option NearIntent
  solvers : String → Option NearSolver
  active_solvers : List String
  intents_by_creator : String → List String
  intents_by_solver : String → List String
  owner : String
  min_solver_stake : Nat
  protocol_fee_bps : Nat
  total_volume : Nat

/-- A scheduled `Promise::transfer`: recipient and yoctoNEAR amount. -/
abbrev Transfer := String × Nat

/-- Result of one NEAR method call: either the new state together with the
transfers it scheduled, or the panic message of the failed assert. -/
abbrev NearResult := Except String (NearState × List Transfer)

/-- Map update for the `Option`-valued stores (insert-or-replace). -/
def upd {β : Type} (m : String → Option β) (k : String) (v : β) :
    String → Option β :=
  fun q => if q = k then some v else m q

/-- Map update for the `List`-valued index stores. -/
def updL (m : String → List String) (k : String) (v : List String) :
    String → List String :=
  fun q => if q = k then v else m q

/-- NEAR `new`: initial contract state. -/
def nearInit (owner : String) (min_solver_stake protocol_fee_bps : Nat) :
    NearState where
  intents := fun _ => none
  solvers := fun _ => none
  active_solvers := []
  intents_by_creator := fun _ => []
  intents_by_solver := fun _ => []
  owner := owner
  min_solver_stake := min_solver_stake
  protocol_fee_bps := protocol_fee_bps
  total_volume := 0

/-- NEAR `create_intent`.  `caller` is the predecessor account, `deposit`
the attached yoctoNEAR, `now` the block timestamp (nanoseconds). -/
def near_create_intent (s : NearState) (caller : String) (deposit : Nat)
    (intent_id : String) (destination_chain : Chain)
    (destination_amount : Nat) (destination_token recipient : String)
    (is_shielded : Bool) (ttl_seconds now : Nat) : NearResult :=
  let source_amount := deposit
  if source_amount > 0 then
    if (s.intents intent_id).isSome then .error "Intent already exists"
    else
      let intent : NearIntent :=
        { intent_id := intent_id
          creator := caller
          source_chain := Chain.Near
          destination_chain := destination_chain
          source_amount := source_amount
          destination_amount := destination_amount
          source_token := "NEAR"
          destination_token := destination_token
          recipient := recipient
          is_shielded := is_shielded
          status := IntentStatus.Created
          solver := none
          created_at := now
          expires_at := now + ttl_seconds * 1000000000
          executed_at := none
          source_tx_hash := none
          destination_tx_hash := none
          privacy_proof := none }
      .ok ({ s with
              intents := upd s.intents intent_id intent
              intents_by_creator :=
                updL s.intents_by_creator caller
                  (s.intents_by_creator caller ++ [intent_id]) }, [])
  else .error "Must attach deposit"

/-- The solver record `register_solver` constructs. -/
def newNearSolver (solver_id : String) (stake : Nat)
    (supported_chains : List Chain) (now : Nat) : NearSolver where
  solver_id := solver_id
  supported_chains := supported_chains
  stake := stake
  reputation_score := 100
  total_intents_executed := 0
  successful_intents := 0
  failed_intents := 0
  total_volume := 0
  is_active := true
  registered_at := now

/-- NEAR `register_solver`. `stake` is the attached deposit. -/
def near_register_solver (s : NearState) (caller : String) (stake : Nat)
    (supported_chains : List Chain) (now : Nat) : NearResult :=
  if s.min_solver_stake ≤ stake then
    if (s.solvers caller).isSome then .error "Solver already registered"
    else
      if supported_chains = [] then .error "Must support at least one chain"
      else
        .ok ({ s with
                solvers :=
                  upd s.solvers caller
                    (newNearSolver caller stake supported_chains now)
                active_solvers := s.active_solvers ++ [caller] }, [])
  else .error "Insufficient stake"

/-- NEAR `match_intent`.  The `proposed_rate`/`estimated_time` arguments are
unused by the source method body and are kept only for signature fidelity. -/
def near_match_intent (s : NearState) (caller intent_id : String)
    (_proposed_rate _estimated_time now : Nat) : NearResult :=
  match s.intents intent_id with
  | none => .error "Intent not found"
  | some intent =>
    match s.solvers caller with
    | none => .error "Solver not found"
    | some solver =>
      if intent.status = IntentStatus.Created then
        if solver.is_active then
          if now < intent.expires_at then
            if solver.supported_chains.contains intent.source_chain &&
                solver.supported_chains.contains intent.destination_chain then
              .ok ({ s with
                      intents :=
                        upd s.intents intent_id
                          { intent with
                              status := IntentStatus.Matched
                              solver := some caller }
                      intents_by_solver :=
                        updL s.intents_by_solver caller
                          (s.intents_by_solver caller ++ [intent_id]) }, [])
            else .error "Solver does not support required chains"
          else .error "Intent expired"
        else .error "Solver not active"
      else .error "Intent already matched"

/-- NEAR `execute_intent`. -/
def near_execute_intent (s : NearState) (caller intent_id : String)
    (destination_tx_hash : String) (privacy_proof : Option String)
    (now : Nat) : NearResult :=
  match s.intents intent_id with
  | none => .error "Intent not found"
  | some intent =>
    if intent.solver = some caller then
      if intent.status = IntentStatus.Matched then
        .ok ({ s with
                intents :=
                  upd s.intents intent_id
                    { intent with
                        status := IntentStatus.Executed
                        executed_at := some now
                        destination_tx_hash := some destination_tx_hash
                        privacy_proof := privacy_proof } }, [])
      else .error "Invalid status"
    else .error "Not the matched solver"

/-- The solver-statistics update `settle_intent` performs (NEAR host):
`total_intents_executed += 1; successful_intents += 1;
total_volume += source_amount; reputation_score += 1` (u32). -/
def near_settle_solver_update (source_amount : Nat) (sv : NearSolver) :
    NearSolver :=
  { sv with
      total_intents_executed := sv.total_intents_executed + 1
      successful_intents := sv.successful_intents + 1
      total_volume := sv.total_volume + source_amount
      reputation_score := (sv.reputation_score + 1) % 4294967296 }

/-- NEAR `settle_intent` (callable by anyone). -/
def near_settle_intent (s : NearState) (intent_id : String) : NearResult :=
  match s.intents intent_id with
  | none => .error "Intent not found"
  | some intent =>
    if intent.status = IntentStatus.Executed then
      match intent.solver with
      | none => .error "No solver"
      | some solver_id =>
        match s.solvers solver_id with
        | none => .error "Solver not found"
        | some solver =>
          let protocol_fee := intent.source_amount * s.protocol_fee_bps / 10000
          let solver_reward := intent.source_amount - protocol_fee
          .ok ({ s with
                  solvers :=
                    upd s.solvers solver_id
                      (near_settle_solver_update intent.source_amount solver)
                  intents :=
                    upd s.intents intent_id
                      { intent with status := IntentStatus.Settled }
                  total_volume := s.total_volume + intent.source_amount },
               [(solver_id, solver_reward), (s.owner, protocol_fee)])
    else .error "Not executed"

/-- The solver-statistics update `fail_intent` performs (NEAR host):
`failed_intents += 1; reputation_score = reputation_score.saturating_sub(5)`.
`Nat` subtraction is exactly `saturating_sub`. -/
def near_fail_solver_update (sv : NearSolver) : NearSolver :=
  { sv with
      failed_intents := sv.failed_intents + 1
      reputation_score := sv.reputation_score - 5 }

/-- NEAR `fail_intent`.  Note the source checks only that the caller is the
bound solver; it performs no check on the current status. -/
def near_fail_intent (s : NearState) (caller intent_id _reason : String) :
    NearResult :=
  match s.intents intent_id with
  | none => .error "Intent not found"
  | some intent =>
    if intent.solver = some caller then
      match s.solvers caller with
      | none => .error "Solver not found"
      | some solver =>
        .ok ({ s with
                solvers := upd s.solvers caller (near_fail_solver_update solver)
                intents :=
                  upd s.intents intent_id
                    { intent with status := IntentStatus.Failed } },
             [(intent.creator, intent.source_amount)])
    else .error "Not the matched solver"

/-- NEAR `set_protocol_fee` (admin). -/
def near_set_protocol_fee (s : NearState) (caller : String) (fee_bps : Nat) :
    NearResult :=
  if caller = s.owner then
    if fee_bps ≤ 1000 then .ok ({ s with protocol_fee_bps := fee_bps }, [])
    else .error "Fee too high"
  else .error "Only owner"

/-- NEAR `deactivate_solver` (admin). -/
def near_deactivate_solver (s : NearState) (caller solver_id : String) :
    NearResult :=
  if caller = s.owner then
    match s.solvers solver_id with
    | none => .error "Solver not found"
    | some solver =>
      .ok ({ s with
              solvers := upd s.solvers solver_id { solver with is_active := false } },
           [])
  else .error "Only owner"

/-- One public mutating call to the NEAR contract, with its environment
(`caller` = predecessor account, `deposit` = attached deposit, `now` =
block timestamp). -/
inductive NearOp where
  | createIntent (caller : String) (deposit : Nat) (intent_id : String)
      (destination_chain : Chain) (destination_amount : Nat)
      (destination_token recipient : String) (is_shielded : Bool)
      (ttl_seconds now : Nat)
  | registerSolver (caller : String) (stake : Nat)
      (supported_chains : List Chain) (now : Nat)
  | matchIntent (caller intent_id : String)
      (proposed_rate estimated_time now : Nat)
  | executeIntent (caller intent_id destination_tx_hash : String)
      (privacy_proof : Option String) (now : Nat)
  | settleIntent (intent_id : String)
  | failIntent (caller intent_id reason : String)
  | setProtocolFee (caller : String) (fee_bps : Nat)
  | deactivateSolver (caller solver_id : String)

/-- Dispatch one call against the current state. -/
def nearExec (s : NearState) : NearOp → NearResult
  | .createIntent caller deposit intent_id dc da dt rc sh ttl now =>
      near_create_intent s caller deposit intent_id dc da dt rc sh ttl now
  | .registerSolver caller stake chains now =>
      near_register_solver s caller stake chains now
  | .matchIntent caller intent_id pr et now =>
      near_match_intent s caller intent_id pr et now
  | .executeIntent caller intent_id tx proof now =>
      near_execute_intent s caller intent_id tx proof now
  | .settleIntent intent_id => near_settle_intent s intent_id
  | .failIntent caller intent_id reason =>
      near_fail_intent s caller intent_id reason
  | .setProtocolFee caller fee => near_set_protocol_fee s caller fee
  | .deactivateSolver caller solver_id =>
      near_deactivate_solver s caller solver_id

/-- Host-level atomicity: a panicking call leaves the state unchanged. -/
def nearStep (s : NearState) (op : NearOp) : NearState :=
  match nearExec s op with
  | .ok (s', _) => s'
  | .error _ => s

/-- Run a sequence of calls from a freshly initialized contract. -/
def runOps (owner : String) (min_stake fee_bps : Nat) (ops : List NearOp) :
    NearState :=
  ops.foldl nearStep (nearInit owner min_stake fee_bps)

/-- Did the call succeed? -/
def resIsOk : NearResult → Bool
  | .ok _ => true
  | .error _ => false

/-- Transfers scheduled by a call (empty when the call panicked). -/
def resTransfers : NearResult → List Transfer
  | .ok (_, tr) => tr
  | .error _ => []

/-- Status of an intent in the state a call produced. -/
def resStatusOf (intent_id : String) : NearResult → Option IntentStatus
  | .ok (s, _) => (s.intents intent_id).map NearIntent.status
  | .error _ => none

/-- Status of an intent in a state. -/
def statusOf (s : NearState) (intent_id : String) : Option IntentStatus :=
  (s.intents intent_id).map NearIntent.status

/-- Solana host: program error codes (the bridge-relevant subset of the
source `ErrorCode` enum). -/
inductive ErrorCode where
  | Overflow
  | FeeTooHigh
  | InsufficientStake
  | NoSupportedChains
  | ZeroDeposit
  | IntentAlreadyMatched
  | SolverNotActive
  | IntentExpired
  | ChainNotSupported
  | NotMatchedSolver
  | InvalidIntentStatus
  | IntentNotExecuted
deriving Repr, DecidableEq

/-- Solana host: cross-chain transfer intent (account `Intent`).  `Pubkey`
and `[u8; 32]` values are abstracted as `Nat`. -/
structure SolIntent where
  intent_id : Nat
  creator : Nat
  source_chain : Chain
  destination_chain : Chain
  source_amount : Nat
  destination_amount_commitment : Nat
  source_token : Nat
  destination_token_hash : Nat
  recipient_hash : Nat
  is_shielded : Bool
  status : IntentStatus
  solver : Option Nat
  created_at : Int
  expires_at : Int
  executed_at : Option Int
  destination_tx_hash : Nat
  privacy_proof : Nat
deriving Repr, DecidableEq

/-- Solana host: solver entity (account `Solver`).  `supported_chains` is
the u8 capability bitmap (bit 0 = Solana, bit 1 = Near, bit 2 = Zcash). -/
structure SolSolver where
  solver_id : Nat
  supported_chains : Nat
  stake : Nat
  reputation_score : Nat
  total_intents_executed : Nat
  successful_intents : Nat
  failed_intents : Nat
  total_volume : Nat
  is_active : Bool
  registered_at : Int
deriving Repr, DecidableEq

/-- The chain bit `match_intent` computes for the destination chain. -/
def chainBit : Chain → Nat
  | Chain.Solana => 1
  | Chain.Near => 2
  | Chain.Zcash => 4

/-- Solana `match_intent`.  The `solver` account is the PDA derived from the
signing `solver_authority`, so the record's `solver_id` is the caller.  The
source checks only the destination-chain bit of the capability bitmap. -/
def sol_match_intent (intent : SolIntent) (solver : SolSolver) (now : Int) :
    Except ErrorCode SolIntent :=
  if intent.status = IntentStatus.Created then
    if solver.is_active then
      if now < intent.expires_at then
        let dest_chain_bit := chainBit intent.destination_chain
        if solver.supported_chains &&& dest_chain_bit ≠ 0 then
          .ok { intent with
                  status := IntentStatus.Matched
                  solver := some solver.solver_id }
        else .error ErrorCode.ChainNotSupported
      else .error ErrorCode.IntentExpired
    else .error ErrorCode.SolverNotActive
  else .error ErrorCode.IntentAlreadyMatched

/-- Solana `execute_intent`.  `caller` is the signing `solver_authority`;
`privacy_proof` overwrites the stored proof only when supplied.  No
VerificationGate result is consulted anywhere in the body. -/
def sol_execute_intent (intent : SolIntent) (caller : Nat)
    (destination_tx_hash : Nat) (privacy_proof : Option Nat) (now : Int) :
    Except ErrorCode SolIntent :=
  if intent.solver = some caller then
    if intent.status = IntentStatus.Matched then
      .ok { intent with
              status := IntentStatus.Executed
              executed_at := some now
              destination_tx_hash := destination_tx_hash
              privacy_proof :=
                match privacy_proof with
                | some proof => proof
                | none => intent.privacy_proof }
    else .error ErrorCode.InvalidIntentStatus
  else .error ErrorCode.NotMatchedSolver

/-- Rust `u128::checked_mul` on the `Nat` images of the operands. -/
def checked_mul_u128 (a b : Nat) : Option Nat :=
  if a * b < 2 ^ 128 then some (a * b) else none

/-- Rust `u128::checked_div`. -/
def checked_div_u128 (a b : Nat) : Option Nat :=
  if b = 0 then none else some (a / b)

/-- Rust `u64::checked_sub`. -/
def checked_sub_u64 (a b : Nat) : Option Nat :=
  if b ≤ a then some (a - b) else none

/-- The fee/reward split computed by Solana `settle_intent` (lines 746-752):
`protocol_fee = (source_amount as u128).checked_mul(fee_bps as u128)
   .ok_or(Overflow)?.checked_div(10000).ok_or(Overflow)? as u64;
 solver_reward = source_amount.checked_sub(protocol_fee).ok_or(Overflow)?`.
The `as u64` narrowing cast is kept explicit as `% 2^64`. -/
def sol_settlement_calc (source_amount protocol_fee_bps : Nat) :
    Except ErrorCode (Nat × Nat) :=
  match checked_mul_u128 source_amount protocol_fee_bps with
  | none => .error ErrorCode.Overflow
  | some product =>
    match checked_div_u128 product 10000 with
    | none => .error ErrorCode.Overflow
    | some fee128 =>
      let protocol_fee := fee128 % 2 ^ 64
      match checked_sub_u64 source_amount protocol_fee with
      | none => .error ErrorCode.Overflow
      | some solver_reward => .ok (protocol_fee, solver_reward)

/-- The solver-statistics update Solana `settle_intent` performs:
`total_intents_executed += 1; successful_intents += 1;
total_volume += source_amount;
reputation_score = reputation_score.saturating_add(1)` (u32). -/
def sol_settle_solver_update (source_amount : Nat) (sv : SolSolver) :
    SolSolver :=
  { sv with
      total_intents_executed := sv.total_intents_executed + 1
      successful_intents := sv.successful_intents + 1
      total_volume := sv.total_volume + source_amount
      reputation_score := min (sv.reputation_score + 1) (2 ^ 32 - 1) }

/-- Solana `register_solver`.  `lamports` is the caller's balance (the
source only verifies it; the recorded stake is `config.min_solver_stake`). -/
def sol_register_solver (user lamports supported_chains min_solver_stake : Nat)
    (now : Int) : Except ErrorCode SolSolver :=
  if supported_chains > 0 then
    if min_solver_stake ≤ lamports then
      .ok { solver_id := user
            supported_chains := supported_chains
            stake := min_solver_stake
            reputation_score := 100
            total_intents_executed := 0
            successful_intents := 0
            failed_intents := 0
            total_volume := 0
            is_active := true
            registered_at := now }
    else .error ErrorCode.InsufficientStake
  else .error ErrorCode.NoSupportedChains

/-- Hidden solver counters fed to the reputation circuit
(struct `SolverMetrics` in encrypted-ixs). -/
structure SolverMetrics where
  total_executed : Nat
  successful : Nat
  failed : Nat
  total_volume : Nat
deriving Repr, DecidableEq

/-- Result of the reputation circuit (struct `ReputationScore`). -/
structure ReputationScore where
  score : Nat
  tier : Nat
  high_value_eligible : Bool
deriving Repr, DecidableEq

/-- Rust `as u32` narrowing cast, also used for u32 wrap-around. -/
def u32 (x : Nat) : Nat := x % 4294967296

/-- Arcium circuit `calculate_reputation` (encrypted-ixs lines 171-222).
The source's `as u32` truncation casts and the operation widths are kept
explicit: `success_rate` is `(m.successful as u32 * 1000) /
m.total_executed as u32` in u32 arithmetic, and the volume bonus is the
u128 quotient `(m.total_volume * 100) / volume_threshold` cast `as u32`.
When the truncated divisor `m.total_executed as u32` is zero although the
u64 guard `total_executed > 0` passed, the Rust division aborts the
computation; Lean's `x / 0 = 0` convention stands in for that aborted
case here, and no theorem below depends on it. -/
def calculate_reputation (m : SolverMetrics) (volume_threshold : Nat) :
    ReputationScore :=
  let success_rate :=
    if m.total_executed > 0 then
      u32 (u32 m.successful * 1000) / u32 m.total_executed
    else 500
  let volume_bonus :=
    if volume_threshold ≤ m.total_volume then 100
    else
      u32 (m.total_volume * 100 % 340282366920938463463374607431768211456
            / volume_threshold)
  let score :=
    if u32 (success_rate + volume_bonus) > 1000 then 1000
    else u32 (success_rate + volume_bonus)
  let tier : Nat :=
    if score ≥ 900 then 5
    else if score ≥ 700 then 4
    else if score ≥ 500 then 3
    else if score ≥ 300 then 2
    else 1
  let high_value_eligible :=
    decide (4 ≤ tier) && decide (volume_threshold ≤ m.total_volume)
  { score := score, tier := tier, high_value_eligible := high_value_eligible }

/-- Panic message of a failed call, `none` when the call succeeded. -/
def resErr : NearResult → Option String
  | .ok _ => none
  | .error e => some e

/-- A NEAR happy-path run that drives intent `"i1"` to `Settled`:
register a solver, create, match, execute, settle. -/
def settledRunOps : List NearOp :=
  [ NearOp.registerSolver "sv" 1000 [Chain.Near, Chain.Zcash] 0,
    NearOp.createIntent "alice" 100 "i1" Chain.Zcash 90 "ZEC" "zaddr" false 3600 0,
    NearOp.matchIntent "sv" "i1" 1 1 5,
    NearOp.executeIntent "sv" "i1" "tx" none 6,
    NearOp.settleIntent "i1" ]

/-- C2: in the state reached by `settledRunOps` the intent is `Settled`,
yet `fail_intent` called by the bound solver still succeeds: it flips the
status to `Failed` and schedules a second payout of the full
`source_amount` to the creator (the escrow was already paid out at
settlement).  The source `fail_intent` checks only the caller, never the
current status, in both hosts. -/
theorem fail_intent_mutates_settled_intent :
    statusOf (runOps "own" 1000 250 settledRunOps) "i1" = some IntentStatus.Settled
    ∧ resIsOk (near_fail_intent (runOps "own" 1000 250 settledRunOps) "sv" "i1" "late") = true
    ∧ resStatusOf "i1" (near_fail_intent (runOps "own" 1000 250 settledRunOps) "sv" "i1" "late")
        = some IntentStatus.Failed
    ∧ resTransfers (near_fail_intent (runOps "own" 1000 250 settledRunOps) "sv" "i1" "late")
        = [("alice", 100)] := by
  decide

/-- A NEAR run that registers a solver, creates and matches an intent, and
then fails it. -/
def failedRunOps : List NearOp :=
  [ NearOp.registerSolver "sv" 1000 [Chain.Near, Chain.Zcash] 0,
    NearOp.createIntent "alice" 100 "i1" Chain.Zcash 90 "ZEC" "zaddr" false 3600 0,
    NearOp.matchIntent "sv" "i1" 1 1 5,
    NearOp.failIntent "sv" "i1" "oops" ]

/-- C7: after a single failed intent the solver's counters are
`total_intents_executed = 0`, `successful_intents = 0`,
`failed_intents = 1`, so `successful + failed ≤ total_executed` is false:
`fail_intent` increments `failed_intents` without touching
`total_intents_executed` (both hosts). -/
theorem solver_counter_invariant_broken :
    ((runOps "own" 1000 250 failedRunOps).solvers "sv").map
        (fun sv => (sv.total_intents_executed, sv.successful_intents, sv.failed_intents))
      = some (0, 0, 1)
    ∧ ¬ (0 + 1 ≤ 0) := by
  decide

/-- Below `2^32` the NEAR per-settlement score update is a plain `+ 1`. -/
lemma near_settle_score_iterate (a : Nat) :
    ∀ (n : Nat) (sv : NearSolver), sv.reputation_score + n < 4294967296 →
      (Nat.iterate (near_settle_solver_update a) n sv).reputation_score
        = sv.reputation_score + n := by
  intro n
  induction n with
  | zero => intro sv _; rfl
  | succ n ih =>
    intro sv h
    rw [Function.iterate_succ_apply]
    have h1 : (near_settle_solver_update a sv).reputation_score
        = sv.reputation_score + 1 := by
      simp only [near_settle_solver_update]
      exact Nat.mod_eq_of_lt (by omega)
    rw [ih _ (by rw [h1]; omega), h1]
    omega

/-- Below `u32::MAX` the Solana per-settlement score update is `+ 1`. -/
lemma sol_settle_score_iterate (a : Nat) :
    ∀ (n : Nat) (sv : SolSolver), sv.reputation_score + n < 4294967295 →
      (Nat.iterate (sol_settle_solver_update a) n sv).reputation_score
        = sv.reputation_score + n := by
  intro n
  induction n with
  | zero => intro sv _; rfl
  | succ n ih =>
    intro sv h
    rw [Function.iterate_succ_apply]
    have h1 : (sol_settle_solver_update a sv).reputation_score
        = sv.reputation_score + 1 := by
      simp only [sol_settle_solver_update]
      have : sv.reputation_score + 1 ≤ 2 ^ 32 - 1 := by norm_num; omega
      simpa using Nat.min_eq_left this
    rw [ih _ (by rw [h1]; omega), h1]
    omega

/-- The record `sol_register_solver 7 1000 3 1000 0` produces. -/
def solFreshSolver : SolSolver where
  solver_id := 7
  supported_chains := 3
  stake := 1000
  reputation_score := 100
  total_intents_executed := 0
  successful_intents := 0
  failed_intents := 0
  total_volume := 0
  is_active := true
  registered_at := 0

/-- C8: the reputation score exceeds 1000.  A freshly registered solver
starts at 100; each settlement adds 1 with no 1000 ceiling (the NEAR host
is a plain `+= 1`, the Solana host saturates only at `u32::MAX`), so after
901 successful settlements the score is 1001 on both hosts. -/
theorem reputation_score_exceeds_1000 :
    (Nat.iterate (near_settle_solver_update 100) 901
        (newNearSolver "sv" 1000 [Chain.Near] 0)).reputation_score = 1001
    ∧ (Except.toOption (sol_register_solver 7 1000 3 1000 0)).map
        (fun r => (Nat.iterate (sol_settle_solver_update 100) 901 r).reputation_score)
      = some 1001
    ∧ 1000 < 1001 := by
  refine ⟨?_, ?_, by norm_num⟩
  · rw [near_settle_score_iterate 100 901 _ (by decide)]
    decide
  · have hreg : sol_register_solver 7 1000 3 1000 0 = .ok solFreshSolver := rfl
    rw [hreg]
    show some ((Nat.iterate (sol_settle_solver_update 100) 901
        solFreshSolver).reputation_score) = some 1001
    rw [sol_settle_score_iterate 100 901 solFreshSolver (by decide)]
    decide

/-- A NEAR run that creates intent `"i1"` and never matches it. -/
def unmatchedRunOps : List NearOp :=
  [ NearOp.createIntent "alice" 100 "i1" Chain.Zcash 90 "ZEC" "zaddr" false 3600 0 ]

/-- C3 counterexample: on an unmatched `Created` intent (`solver = None`)
`fail_intent` does not succeed: the `intent.solver == Some(caller)` assert
can never hold, so the call panics (here: for the intent's own creator).
The claim's branch "for an unmatched Created intent no solver precondition
applies — succeeds" is false on the code. -/
theorem fail_intent_rejects_unmatched_created :
    statusOf (runOps "own" 1000 250 unmatchedRunOps) "i1" = some IntentStatus.Created
    ∧ ((runOps "own" 1000 250 unmatchedRunOps).intents "i1").map NearIntent.solver
        = some none
    ∧ resErr (near_fail_intent (runOps "own" 1000 250 unmatchedRunOps) "alice" "i1" "cancel")
        = some "Not the matched solver" := by
  decide

/-- A `Created` Solana intent from Solana to Near, not yet expired. -/
def solanaToNearIntent : SolIntent where
  intent_id := 1
  creator := 11
  source_chain := Chain.Solana
  destination_chain := Chain.Near
  source_amount := 1000
  destination_amount_commitment := 0
  source_token := 0
  destination_token_hash := 0
  recipient_hash := 0
  is_shielded := false
  status := IntentStatus.Created
  solver := none
  created_at := 0
  expires_at := 100
  executed_at := none
  destination_tx_hash := 0
  privacy_proof := 0

/-- An active Solana solver whose capability bitmap is `0b010` (Near only):
it does not contain the Solana bit. -/
def nearOnlySolver : SolSolver where
  solver_id := 7
  supported_chains := 2
  stake := 1000
  reputation_score := 100
  total_intents_executed := 0
  successful_intents := 0
  failed_intents := 0
  total_volume := 0
  is_active := true
  registered_at := 0

/-- C4 counterexample: the Solana `match_intent` succeeds for a solver
whose capability bitmap does not contain the intent's `source_chain`
(Solana): only the destination-chain bit is checked.  The claim's
"if and only if ... contains both the intent's source_chain and its
destination_chain" is false on the Solana host. -/
theorem match_intent_ignores_source_chain :
    (Except.toOption (sol_match_intent solanaToNearIntent nearOnlySolver 0)).map
        SolIntent.status = some IntentStatus.Matched
    ∧ (Except.toOption (sol_match_intent solanaToNearIntent nearOnlySolver 0)).map
        SolIntent.solver = some (some 7)
    ∧ nearOnlySolver.supported_chains &&& chainBit solanaToNearIntent.source_chain = 0 := by
  decide

/-- A shielded Solana intent in status `Matched`, bound to solver `7`. -/
def shieldedMatchedIntent : SolIntent where
  intent_id := 2
  creator := 11
  source_chain := Chain.Solana
  destination_chain := Chain.Zcash
  source_amount := 1000
  destination_amount_commitment := 0
  source_token := 0
  destination_token_hash := 0
  recipient_hash := 0
  is_shielded := true
  status := IntentStatus.Matched
  solver := some 7
  created_at := 0
  expires_at := 100
  executed_at := none
  destination_tx_hash := 0
  privacy_proof := 0

/-- C6 counterexample: a shielded intent advances `Matched → Executed` with
no privacy proof supplied and no VerificationGate result anywhere in the
call's inputs: `execute_intent` checks only the caller and the status.  The
`generate_privacy_proof` / `verify_intent_amounts` callbacks of the source
only emit events and never touch an intent. -/
theorem execute_intent_ignores_verification_gate :
    shieldedMatchedIntent.is_shielded = true
    ∧ (Except.toOption (sol_execute_intent shieldedMatchedIntent 7 555 none 5)).map
        SolIntent.status = some IntentStatus.Executed := by
  decide

/-- Reachability invariant of the NEAR engine: an intent holding a bound
solver is never in status `Created` (matching moves it to `Matched`, and no
operation ever returns an intent to `Created`). -/
def NearInv (s : NearState) : Prop :=
  ∀ id i, s.intents id = some i → i.solver ≠ none →
    i.status ≠ IntentStatus.Created

/-- The initial contract state has no intents, hence satisfies the
invariant. -/
lemma nearInit_inv (o : String) (m f : Nat) : NearInv (nearInit o m f) := by
  intro id i h
  simp [nearInit] at h

/-- How one engine call can change the entry of the intents map at `q`:
either it is untouched; or a fresh `Created` intent with no solver was
inserted at a previously empty key; or a `match_intent` on `q` moved a
`Created` intent to `Matched` binding the calling solver; or an
execute/settle/fail on `q` rewrote the status of an intent that already had
a bound solver, to a status other than `Created`, leaving `solver`
unchanged. -/
lemma nearStep_intents_cases (s : NearState) (op : NearOp) (q : String) :
    (nearStep s op).intents q = s.intents q
    ∨ (∃ i', (nearStep s op).intents q = some i' ∧ s.intents q = none
          ∧ i'.solver = none ∧ i'.status = IntentStatus.Created)
    ∨ (∃ i caller pr et now, op = NearOp.matchIntent caller q pr et now
          ∧ s.intents q = some i ∧ i.status = IntentStatus.Created
          ∧ (nearStep s op).intents q
              = some { i with status := IntentStatus.Matched
                              solver := some caller })
    ∨ (∃ i i', s.intents q = some i ∧ (nearStep s op).intents q = some i'
          ∧ i'.solver = i.solver ∧ i.solver ≠ none
          ∧ i'.status ≠ IntentStatus.Created) := by
  cases op with
  | createIntent caller dep iid dc da dt rc sh ttl now =>
    by_cases h1 : dep > 0
    · cases hI : s.intents iid with
      | some intent =>
        left
        simp only [nearStep, nearExec, near_create_intent, hI, if_pos h1]
        rfl
      | none =>
        by_cases hq : q = iid
        · subst hq
          right; left
          refine ⟨{ intent_id := q, creator := caller,
                    source_chain := Chain.Near, destination_chain := dc,
                    source_amount := dep, destination_amount := da,
                    source_token := "NEAR", destination_token := dt,
                    recipient := rc, is_shielded := sh,
                    status := IntentStatus.Created, solver := none,
                    created_at := now,
                    expires_at := now + ttl * 1000000000,
                    executed_at := none, source_tx_hash := none,
                    destination_tx_hash := none, privacy_proof := none },
                  ?_, hI, rfl, rfl⟩
          simp only [nearStep, nearExec, near_create_intent, hI, if_pos h1]
          simp [upd]
        · left
          simp only [nearStep, nearExec, near_create_intent, hI, if_pos h1]
          simp [upd, hq]
    · left
      simp only [nearStep, nearExec, near_create_intent, if_neg h1]
  | registerSolver caller stake chains now =>
    left
    simp only [nearStep, nearExec, near_register_solver]
    split
    · rename_i heq
      repeat' split at heq
      all_goals first
        | (cases heq; rfl)
        | cases heq
    · rfl
  | matchIntent caller iid pr et now =>
    cases hI : s.intents iid with
    | none =>
      left
      simp only [nearStep, nearExec, near_match_intent, hI]
    | some intent =>
      cases hSv : s.solvers caller with
      | none =>
        left
        simp only [nearStep, nearExec, near_match_intent, hI, hSv]
      | some solver =>
        by_cases hst : intent.status = IntentStatus.Created
        · by_cases hact : solver.is_active = true
          · by_cases hexp : now < intent.expires_at
            · by_cases hch : (solver.supported_chains.contains intent.source_chain
                  && solver.supported_chains.contains intent.destination_chain) = true
              · by_cases hq : q = iid
                · subst hq
                  right; right; left
                  refine ⟨intent, caller, pr, et, now, rfl, hI, hst, ?_⟩
                  simp only [nearStep, nearExec, near_match_intent, hI, hSv,
                    if_pos hst, if_pos hact, if_pos hexp, if_pos hch]
                  simp [upd]
                · left
                  simp only [nearStep, nearExec, near_match_intent, hI, hSv,
                    if_pos hst, if_pos hact, if_pos hexp, if_pos hch]
                  simp [upd, hq]
              · left
                simp only [nearStep, nearExec, near_match_intent, hI, hSv,
                  if_pos hst, if_pos hact, if_pos hexp, if_neg hch]
            · left
              simp only [nearStep, nearExec, near_match_intent, hI, hSv,
                if_pos hst, if_pos hact, if_neg hexp]
          · left
            simp only [nearStep, nearExec, near_match_intent, hI, hSv,
              if_pos hst, if_neg hact]
        · left
          simp only [nearStep, nearExec, near_match_intent, hI, hSv, if_neg hst]
  | executeIntent caller iid tx proof now =>
    cases hI : s.intents iid with
    | none =>
      left
      simp only [nearStep, nearExec, near_execute_intent, hI]
    | some intent =>
      by_cases hsv : intent.solver = some caller
      · by_cases hst : intent.status = IntentStatus.Matched
        · by_cases hq : q = iid
          · subst hq
            right; right; right
            refine ⟨intent,
                    { intent with status := IntentStatus.Executed,
                                  executed_at := some now,
                                  destination_tx_hash := some tx,
                                  privacy_proof := proof },
                    hI, ?_, rfl, by simp [hsv], by simp⟩
            simp only [nearStep, nearExec, near_execute_intent, hI,
              if_pos hsv, if_pos hst]
            simp [upd]
          · left
            simp only [nearStep, nearExec, near_execute_intent, hI,
              if_pos hsv, if_pos hst]
            simp [upd, hq]
        · left
          simp only [nearStep, nearExec, near_execute_intent, hI,
            if_pos hsv, if_neg hst]
      · left
        simp only [nearStep, nearExec, near_execute_intent, hI, if_neg hsv]
  | settleIntent iid =>
    cases hI : s.intents iid with
    | none =>
      left
      simp only [nearStep, nearExec, near_settle_intent, hI]
    | some intent =>
      by_cases hst : intent.status = IntentStatus.Executed
      · cases hsv : intent.solver with
        | none =>
          left
          simp only [nearStep, nearExec, near_settle_intent, hI,
            if_pos hst, hsv]
        | some solver_id =>
          cases hS : s.solvers solver_id with
          | none =>
            left
            simp only [nearStep, nearExec, near_settle_intent, hI,
              if_pos hst, hsv, hS]
          | some solver =>
            by_cases hq : q = iid
            · subst hq
              right; right; right
              refine ⟨intent,
                      { intent with status := IntentStatus.Settled },
                      hI, ?_, rfl, by simp [hsv], by simp⟩
              simp only [nearStep, nearExec, near_settle_intent, hI,
                if_pos hst, hsv, hS]
              simp [upd]
            · left
              simp only [nearStep, nearExec, near_settle_intent, hI,
                if_pos hst, hsv, hS]
              simp [upd, hq]
      · left
        simp only [nearStep, nearExec, near_settle_intent, hI, if_neg hst]
  | failIntent caller iid reason =>
    cases hI : s.intents iid with
    | none =>
      left
      simp only [nearStep, nearExec, near_fail_intent, hI]
    | some intent =>
      by_cases hsv : intent.solver = some caller
      · cases hS : s.solvers caller with
        | none =>
          left
          simp only [nearStep, nearExec, near_fail_intent, hI,
            if_pos hsv, hS]
        | some solver =>
          by_cases hq : q = iid
          · subst hq
            right; right; right
            refine ⟨intent,
                    { intent with status := IntentStatus.Failed },
                    hI, ?_, rfl, by simp [hsv], by simp⟩
            simp only [nearStep, nearExec, near_fail_intent, hI,
              if_pos hsv, hS]
            simp [upd]
          · left
            simp only [nearStep, nearExec, near_fail_intent, hI,
              if_pos hsv, hS]
            simp [upd, hq]
      · left
        simp only [nearStep, nearExec, near_fail_intent, hI, if_neg hsv]
  | setProtocolFee caller fee =>
    left
    simp only [nearStep, nearExec, near_set_protocol_fee]
    split
    · rename_i heq
      repeat' split at heq
      all_goals first
        | (cases heq; rfl)
        | cases heq
    · rfl
  | deactivateSolver caller solver_id =>
    left
    simp only [nearStep, nearExec, near_deactivate_solver]
    split
    · rename_i heq
      repeat' split at heq
      all_goals first
        | (cases heq; rfl)
        | cases heq
    · rfl

/-- The invariant is preserved by every engine call. -/
lemma nearStep_inv {s : NearState} (hInv : NearInv s) (op : NearOp) :
    NearInv (nearStep s op) := by
  intro q i hq hsolver
  rcases nearStep_intents_cases s op q with
      heq
    | ⟨i', h1, _h2, h3, _h4⟩
    | ⟨j, caller, pr, et, now, _hop, _hj, _hst, hlook⟩
    | ⟨j, j', _hj, hlook, _hsolv, _hne, hst⟩
  · rw [heq] at hq
    exact hInv q i hq hsolver
  · rw [h1] at hq
    injection hq with hq
    subst hq
    exact absurd h3 hsolver
  · rw [hlook] at hq
    injection hq with hq
    subst hq
    simp
  · rw [hlook] at hq
    injection hq with hq
    subst hq
    exact hst

/-- An already-bound solver field survives one engine call unchanged. -/
lemma nearStep_solver_preserved {s : NearState} (hInv : NearInv s)
    (op : NearOp) {id x : String} {i : NearIntent}
    (h : s.intents id = some i) (hx : i.solver = some x) :
    ∃ i', (nearStep s op).intents id = some i' ∧ i'.solver = some x := by
  rcases nearStep_intents_cases s op id with
      heq
    | ⟨i', _h1, h2, _h3, _h4⟩
    | ⟨j, caller, pr, et, now, _hop, hj, hst, _hlook⟩
    | ⟨j, j', hj, hlook, hsolv, _hne, _hst⟩
  · exact ⟨i, heq.trans h, hx⟩
  · rw [h2] at h
    cases h
  · rw [h] at hj
    injection hj with hj
    subst hj
    exact absurd hst (hInv id i h (by simp [hx]))
  · rw [h] at hj
    injection hj with hj
    subst hj
    exact ⟨j', hlook, by rw [hsolv, hx]⟩

/-- Only a successful `match_intent` on this very intent, by the solver it
binds, turns the intent's `solver` field from `None` into `Some`. -/
lemma nearStep_solver_new_is_match {s : NearState} (op : NearOp)
    {id x : String} {i i' : NearIntent}
    (h : s.intents id = some i) (hnone : i.solver = none)
    (h' : (nearStep s op).intents id = some i') (hx : i'.solver = some x) :
    ∃ pr et now, op = NearOp.matchIntent x id pr et now := by
  rcases nearStep_intents_cases s op id with
      heq
    | ⟨j', _h1, h2, _h3, _h4⟩
    | ⟨j, caller, pr, et, now, hop, hj, _hst, hlook⟩
    | ⟨j, j', hj, hlook, hsolv, hne, _hst⟩
  · rw [heq, h] at h'
    injection h' with h'
    subst h'
    rw [hnone] at hx
    cases hx
  · rw [h2] at h
    cases h
  · rw [hlook] at h'
    injection h' with h'
    subst h'
    simp only at hx
    injection hx with hx
    subst hx
    exact ⟨pr, et, now, hop⟩
  · rw [h] at hj
    injection hj with hj
    subst hj
    rw [hnone] at hsolv
    rw [hlook] at h'
    injection h' with h'
    subst h'
    rw [hsolv] at hx
    cases hx

/-- The invariant holds along any run. -/
lemma foldl_inv :
    ∀ (ops : List NearOp) (s : NearState), NearInv s →
      NearInv (ops.foldl nearStep s) := by
  intro ops
  induction ops with
  | nil => intro s h; exact h
  | cons op rest ih =>
    intro s h
    exact ih (nearStep s op) (nearStep_inv h op)

/-- An already-bound solver field survives any further run unchanged. -/
lemma foldl_solver_preserved :
    ∀ (more : List NearOp) (s : NearState), NearInv s →
      ∀ {id x : String} {i : NearIntent},
        s.intents id = some i → i.solver = some x →
        ∃ i', (more.foldl nearStep s).intents id = some i'
            ∧ i'.solver = some x := by
  intro more
  induction more with
  | nil => intro s _ id x i h hx; exact ⟨i, h, hx⟩
  | cons op rest ih =>
    intro s hInv id x i h hx
    obtain ⟨i', h', hx'⟩ := nearStep_solver_preserved hInv op h hx
    exact ih (nearStep s op) (nearStep_inv hInv op) h' hx'

/-- C5: in every reachable state of the NEAR engine, once an intent's
`solver` field is `Some x` it stays `Some x` under any further sequence of
engine calls (so the `None → Some` transition happens at most once); and
the only call that turns `solver` from `None` into `Some x` is a
successful `match_intent` on that intent by solver `x` itself. -/
theorem solver_binding_set_once :
    (∀ (owner : String) (min_stake fee_bps : Nat) (ops more : List NearOp)
        (id x : String) (i i' : NearIntent),
        (runOps owner min_stake fee_bps ops).intents id = some i →
        i.solver = some x →
        (runOps owner min_stake fee_bps (ops ++ more)).intents id = some i' →
        i'.solver = some x)
    ∧ (∀ (s : NearState) (op : NearOp) (id x : String) (i i' : NearIntent),
        s.intents id = some i → i.solver = none →
        (nearStep s op).intents id = some i' → i'.solver = some x →
        ∃ pr et now, op = NearOp.matchIntent x id pr et now) := by
  constructor
  · intro o ms fb ops more id x i i' h1 hx h2
    have hInv : NearInv (runOps o ms fb ops) :=
      foldl_inv ops _ (nearInit_inv o ms fb)
    obtain ⟨j, hj, hjx⟩ := foldl_solver_preserved more _ hInv h1 hx
    have hsplit : runOps o ms fb (ops ++ more)
        = more.foldl nearStep (runOps o ms fb ops) := by
      simp [runOps, List.foldl_append]
    rw [hsplit, hj] at h2
    injection h2 with h2
    subst h2
    exact hjx
  · intro s op id x i i' h hnone h' hx
    exact nearStep_solver_new_is_match op h hnone h' hx

/-- The matched intent reached by `matchedRunOps`. -/
def c5MatchedIntent : NearIntent where
  intent_id := "i1"
  creator := "alice"
  source_chain := Chain.Near
  destination_chain := Chain.Zcash
  source_amount := 100
  destination_amount := 90
  source_token := "NEAR"
  destination_token := "ZEC"
  recipient := "zaddr"
  is_shielded := false
  status := IntentStatus.Matched
  solver := some "sv"
  created_at := 0
  expires_at := 3600000000000
  executed_at := none
  source_tx_hash := none
  destination_tx_hash := none
  privacy_proof := none

/-- `c5MatchedIntent` after `execute_intent` at time 6 with tx `"tx"`. -/
def c5ExecutedIntent : NearIntent :=
  { c5MatchedIntent with
      status := IntentStatus.Executed
      executed_at := some 6
      destination_tx_hash := some "tx"
      privacy_proof := none }

/-- Register, create, match: a run that binds solver `"sv"` to `"i1"`. -/
def matchedRunOps : List NearOp :=
  [ NearOp.registerSolver "sv" 1000 [Chain.Near, Chain.Zcash] 0,
    NearOp.createIntent "alice" 100 "i1" Chain.Zcash 90 "ZEC" "zaddr" false 3600 0,
    NearOp.matchIntent "sv" "i1" 1 1 5 ]

/-- A continuation of `matchedRunOps`. -/
def executeMoreOps : List NearOp :=
  [ NearOp.executeIntent "sv" "i1" "tx" none 6 ]

/-- Witness for C5 at a concrete run: after match the binding is
`some "sv"` and it survives the following `execute_intent`. -/
theorem solver_binding_set_once_witness :
    ((runOps "own" 1000 250 (matchedRunOps ++ executeMoreOps)).intents "i1").map
        NearIntent.solver = some (some "sv") := by
  have h1 : (runOps "own" 1000 250 matchedRunOps).intents "i1"
      = some c5MatchedIntent := by decide
  have hx : c5MatchedIntent.solver = some "sv" := rfl
  have h2 : (runOps "own" 1000 250 (matchedRunOps ++ executeMoreOps)).intents "i1"
      = some c5ExecutedIntent := by decide
  have h3 := solver_binding_set_once.1 "own" 1000 250 matchedRunOps
    executeMoreOps "i1" "sv" c5MatchedIntent c5ExecutedIntent h1 hx h2
  rw [h2]
  simp [h3]

/-- C1: the settlement split.  For a `u64` source amount and a fee of at
most 1000 bps the checked pipeline succeeds with
`protocol_fee = floor(a*f/10000)` and `solver_reward = a - protocol_fee`,
and the two parts always recompose to exactly `a`; and whenever the `u128`
product would overflow, the call signals `Overflow` (aborting the
settlement before any funds movement or state change). -/
theorem settlement_split_exact :
    (∀ (a f : Nat), a < 2 ^ 64 → f ≤ 1000 →
        sol_settlement_calc a f
            = .ok (a * f / 10000, a - a * f / 10000)
          ∧ (a - a * f / 10000) + a * f / 10000 = a)
    ∧ (∀ (a f : Nat), 2 ^ 128 ≤ a * f →
        sol_settlement_calc a f = .error ErrorCode.Overflow) := by
  constructor
  · intro a f ha hf
    have hmul : a * f < 2 ^ 128 := by
      calc a * f ≤ a * 1000 := Nat.mul_le_mul_left a hf
        _ < 2 ^ 64 * 1000 := by
            exact Nat.mul_lt_mul_of_lt_of_le ha (le_refl 1000) (by norm_num)
        _ < 2 ^ 128 := by norm_num
    have hfee_le : a * f / 10000 ≤ a := by
      have h1 : a * f ≤ a * 10000 :=
        Nat.mul_le_mul_left a (le_trans hf (by norm_num))
      calc a * f / 10000 ≤ a * 10000 / 10000 := Nat.div_le_div_right h1
        _ = a := Nat.mul_div_cancel a (by norm_num)
    have hmul' : a * f < 340282366920938463463374607431768211456 := hmul
    have hmod : a * f / 10000 % 18446744073709551616 = a * f / 10000 :=
      Nat.mod_eq_of_lt (lt_of_le_of_lt hfee_le ha)
    constructor
    · simp [sol_settlement_calc, checked_mul_u128, checked_div_u128,
        checked_sub_u64, hmul', hmod, hfee_le]
    · exact Nat.sub_add_cancel hfee_le
  · intro a f h
    have h' : ¬ (a * f < 340282366920938463463374607431768211456) :=
      Nat.not_lt.mpr h
    simp [sol_settlement_calc, checked_mul_u128, h']

/-- Witness for C1 at the spec's own example:
`source_amount = 10000`, `fee_bps = 250` gives fee 250 and reward 9750. -/
theorem settlement_split_exact_witness :
    sol_settlement_calc 10000 250 = .ok (250, 9750) ∧ 9750 + 250 = 10000 := by
  have h := settlement_split_exact.1 10000 250 (by norm_num) (by norm_num)
  refine ⟨?_, by norm_num⟩
  have h1 := h.1
  norm_num at h1
  exact h1

/-- C3 (amended): `fail_intent` succeeds exactly for the bound solver.
When the intent has a (registered) bound solver and the caller is that
solver, the call succeeds regardless of the current status: it refunds
exactly `source_amount` to the creator, increments the solver's
`failed_intents`, subtracts 5 from its reputation (saturating at 0), and
sets the status to `Failed`.  When the intent is unmatched
(`solver = None`) — in particular any `Created` intent — every
`fail_intent` call on it panics with "Not the matched solver", so an
unmatched intent can never be failed. -/
theorem fail_intent_requires_bound_solver :
    (∀ (s : NearState) (caller intent_id reason : String)
        (i : NearIntent) (sv : NearSolver),
        s.intents intent_id = some i → i.solver = some caller →
        s.solvers caller = some sv →
        near_fail_intent s caller intent_id reason
          = .ok ({ s with
                    solvers :=
                      upd s.solvers caller (near_fail_solver_update sv)
                    intents :=
                      upd s.intents intent_id
                        { i with status := IntentStatus.Failed } },
                 [(i.creator, i.source_amount)]))
    ∧ (∀ (s : NearState) (caller intent_id reason : String) (i : NearIntent),
        s.intents intent_id = some i → i.solver = none →
        near_fail_intent s caller intent_id reason
          = .error "Not the matched solver") := by
  constructor
  · intro s caller intent_id reason i sv hI hsv hS
    simp [near_fail_intent, hI, hsv, hS]
  · intro s caller intent_id reason i hI hnone
    have hne : ¬ i.solver = some caller := by simp [hnone]
    simp [near_fail_intent, hI, hne]

/-- Witness for C3 (amended) on the concrete matched run: the bound solver
fails intent `"i1"`: the creator is refunded the full 100 and the status
becomes `Failed`. -/
theorem fail_intent_requires_bound_solver_witness :
    resTransfers (near_fail_intent (runOps "own" 1000 250 matchedRunOps)
        "sv" "i1" "oops") = [("alice", 100)]
    ∧ resStatusOf "i1" (near_fail_intent (runOps "own" 1000 250 matchedRunOps)
        "sv" "i1" "oops") = some IntentStatus.Failed := by
  have h := fail_intent_requires_bound_solver.1
    (runOps "own" 1000 250 matchedRunOps) "sv" "i1" "oops"
    c5MatchedIntent (newNearSolver "sv" 1000 [Chain.Near, Chain.Zcash] 0)
    (by decide) rfl (by decide)
  rw [h]
  constructor
  · rfl
  · simp [resStatusOf, upd]

/-- Did a Solana instruction succeed? -/
def solOk {α : Type} : Except ErrorCode α → Bool
  | .ok _ => true
  | .error _ => false

/-- C4 (amended): eligibility for `match_intent`.  On the Solana host the
call succeeds iff the intent is `Created`, the solver is active, the
intent is unexpired, and the solver's capability bitmap contains the
destination chain — the source chain is NOT checked there; the NEAR host
additionally requires the capability list to contain the source chain.  On
both hosts, whenever the intent is `Created`, the solver active, and
`now ≥ expires_at`, the call fails precisely with `IntentExpired`. -/
theorem match_intent_eligibility :
    (∀ (intent : SolIntent) (solver : SolSolver) (now : Int),
        solOk (sol_match_intent intent solver now) = true
          ↔ intent.status = IntentStatus.Created ∧ solver.is_active = true
            ∧ now < intent.expires_at
            ∧ solver.supported_chains &&& chainBit intent.destination_chain ≠ 0)
    ∧ (∀ (intent : SolIntent) (solver : SolSolver) (now : Int),
        intent.status = IntentStatus.Created → solver.is_active = true →
        intent.expires_at ≤ now →
        sol_match_intent intent solver now = .error ErrorCode.IntentExpired)
    ∧ (∀ (s : NearState) (caller intent_id : String) (pr et now : Nat)
        (i : NearIntent) (sv : NearSolver),
        s.intents intent_id = some i → s.solvers caller = some sv →
        (resIsOk (near_match_intent s caller intent_id pr et now) = true
          ↔ i.status = IntentStatus.Created ∧ sv.is_active = true
            ∧ now < i.expires_at
            ∧ (sv.supported_chains.contains i.source_chain
                && sv.supported_chains.contains i.destination_chain) = true))
    ∧ (∀ (s : NearState) (caller intent_id : String) (pr et now : Nat)
        (i : NearIntent) (sv : NearSolver),
        s.intents intent_id = some i → s.solvers caller = some sv →
        i.status = IntentStatus.Created → sv.is_active = true →
        i.expires_at ≤ now →
        near_match_intent s caller intent_id pr et now
          = .error "Intent expired") := by
  refine ⟨?_, ?_, ?_, ?_⟩
  · intro intent solver now
    by_cases h1 : intent.status = IntentStatus.Created <;>
      by_cases h2 : solver.is_active = true <;>
        by_cases h3 : now < intent.expires_at <;>
          by_cases h4 : solver.supported_chains
              &&& chainBit intent.destination_chain ≠ 0 <;>
            simp [sol_match_intent, solOk, h1, h2, h3, h4]
  · intro intent solver now h1 h2 h3
    simp [sol_match_intent, h1, h2, not_lt.mpr h3]
  · intro s caller intent_id pr et now i sv hI hS
    by_cases h1 : i.status = IntentStatus.Created <;>
      by_cases h2 : sv.is_active = true <;>
        by_cases h3 : now < i.expires_at <;>
          by_cases h4 : i.source_chain ∈ sv.supported_chains
              ∧ i.destination_chain ∈ sv.supported_chains <;>
            simp [near_match_intent, resIsOk, hI, hS, h1, h2, h3, h4]
  · intro s caller intent_id pr et now i sv hI hS h1 h2 h3
    simp [near_match_intent, hI, hS, h1, h2, not_lt.mpr h3]

/-- Witness for C4 (amended): an otherwise eligible match at
`now = expires_at` fails with `IntentExpired`. -/
theorem match_intent_eligibility_witness :
    sol_match_intent solanaToNearIntent nearOnlySolver 100
      = .error ErrorCode.IntentExpired := by
  exact match_intent_eligibility.2.1 solanaToNearIntent nearOnlySolver 100
    rfl rfl (by decide)

/-- C6 (amended): `execute_intent` succeeds exactly when the caller is the
bound solver and the status is `Matched`; it records the delivery tx hash
and stores the optional privacy proof, but consults no VerificationGate
result — shielded intents advance like any other. -/
theorem execute_intent_no_gate :
    (∀ (intent : SolIntent) (caller tx : Nat) (pp : Option Nat) (now : Int),
        solOk (sol_execute_intent intent caller tx pp now) = true
          ↔ intent.solver = some caller
            ∧ intent.status = IntentStatus.Matched)
    ∧ (∀ (intent : SolIntent) (caller tx : Nat) (pp : Option Nat) (now : Int),
        intent.solver = some caller → intent.status = IntentStatus.Matched →
        sol_execute_intent intent caller tx pp now
          = .ok { intent with
                    status := IntentStatus.Executed
                    executed_at := some now
                    destination_tx_hash := tx
                    privacy_proof :=
                      match pp with
                      | some proof => proof
                      | none => intent.privacy_proof }) := by
  constructor
  · intro intent caller tx pp now
    by_cases h1 : intent.solver = some caller <;>
      by_cases h2 : intent.status = IntentStatus.Matched <;>
        simp [sol_execute_intent, solOk, h1, h2]
  · intro intent caller tx pp now h1 h2
    simp [sol_execute_intent, h1, h2]

/-- Witness for C6 (amended) at the concrete shielded matched intent. -/
theorem execute_intent_no_gate_witness :
    sol_execute_intent shieldedMatchedIntent 7 555 none 5
      = .ok { shieldedMatchedIntent with
                status := IntentStatus.Executed
                executed_at := some 5
                destination_tx_hash := 555 } := by
  exact execute_intent_no_gate.2 shieldedMatchedIntent 7 555 none 5 rfl rfl

/-- C9 counterexample: the claim's universal score formula fails on the
code.  At metrics `total_executed = 2`, `successful = 2^32 + 1` (volume 0,
threshold 1) the circuit's `as u32` cast truncates `successful` to 1, so
the computed score is `(1 * 1000) / 2 = 500`, while the claimed formula
`min 1000 (successful * 1000 / total_executed + volume_bonus)` gives
1000. -/
theorem calculate_reputation_truncation_diverges :
    (calculate_reputation ⟨2, 4294967297, 0, 0⟩ 1).score = 500
    ∧ min 1000 (4294967297 * 1000 / 2 + min 100 (0 * 100 / 1)) = 1000
    ∧ (500 : Nat) ≠ 1000 := by
  decide

/-- C9 (amended): on the circuit's exact-arithmetic domain — positive
`volume_threshold`, `total_executed < 2^32`,
`successful*1000 + 100 < 2^32` (so nothing is truncated by the `as u32`
casts, the u32 product and the final u32 sum do not wrap), and
`total_volume*100 < 2^128` — the circuit computes exactly the documented
formulas: `score = min 1000 (success_rate + volume_bonus)` with
`success_rate = successful*1000/total_executed` (500 when
`total_executed = 0`) and `volume_bonus = min 100
(total_volume*100/volume_threshold)`; `tier` follows the 900/700/500/300
thresholds on the computed score; and `high_value_eligible` holds exactly
when `tier ≥ 4` and `total_volume ≥ volume_threshold`.  Outside this
domain the `as u32` truncations make the score diverge from the ideal
formula (`calculate_reputation_truncation_diverges`). -/
theorem calculate_reputation_spec (m : SolverMetrics) (volume_threshold : Nat)
    (ht : 0 < volume_threshold)
    (hexec : m.total_executed < 4294967296)
    (hsucc : m.successful * 1000 + 100 < 4294967296)
    (hvol : m.total_volume * 100 < 340282366920938463463374607431768211456) :
    (calculate_reputation m volume_threshold).score
        = min 1000
            ((if m.total_executed = 0 then 500
              else m.successful * 1000 / m.total_executed)
              + min 100 (m.total_volume * 100 / volume_threshold))
    ∧ (calculate_reputation m volume_threshold).tier
        = (if 900 ≤ (calculate_reputation m volume_threshold).score then 5
           else if 700 ≤ (calculate_reputation m volume_threshold).score then 4
           else if 500 ≤ (calculate_reputation m volume_threshold).score then 3
           else if 300 ≤ (calculate_reputation m volume_threshold).score then 2
           else 1)
    ∧ ((calculate_reputation m volume_threshold).high_value_eligible = true
        ↔ 4 ≤ (calculate_reputation m volume_threshold).tier
          ∧ volume_threshold ≤ m.total_volume) := by
  have h32exec : u32 m.total_executed = m.total_executed :=
    Nat.mod_eq_of_lt hexec
  have h32succ : u32 m.successful = m.successful :=
    Nat.mod_eq_of_lt (by omega)
  have h32mul : u32 (u32 m.successful * 1000) = m.successful * 1000 := by
    rw [h32succ]
    exact Nat.mod_eq_of_lt (by omega)
  have hsr : (if m.total_executed > 0
        then u32 (u32 m.successful * 1000) / u32 m.total_executed else 500)
      = (if m.total_executed = 0 then 500
         else m.successful * 1000 / m.total_executed) := by
    by_cases h : m.total_executed = 0
    · simp [h]
    · simp [h, Nat.pos_of_ne_zero h, h32mul, h32exec]
  have hvmul : m.total_volume * 100
        % 340282366920938463463374607431768211456 = m.total_volume * 100 :=
    Nat.mod_eq_of_lt hvol
  have hvb : (if volume_threshold ≤ m.total_volume then 100
        else u32 (m.total_volume * 100
            % 340282366920938463463374607431768211456 / volume_threshold))
      = min 100 (m.total_volume * 100 / volume_threshold) := by
    by_cases h : volume_threshold ≤ m.total_volume
    · have h100 : 100 ≤ m.total_volume * 100 / volume_threshold := by
        rw [Nat.le_div_iff_mul_le ht]
        calc 100 * volume_threshold = volume_threshold * 100 :=
              Nat.mul_comm _ _
          _ ≤ m.total_volume * 100 := Nat.mul_le_mul_right 100 h
      simp [h, Nat.min_eq_left h100]
    · have hlt : m.total_volume * 100 / volume_threshold < 100 := by
        rw [Nat.div_lt_iff_lt_mul ht]
        have hv : m.total_volume < volume_threshold := Nat.lt_of_not_le h
        calc m.total_volume * 100 < volume_threshold * 100 :=
              Nat.mul_lt_mul_of_lt_of_le hv (le_refl 100) (by norm_num)
          _ = 100 * volume_threshold := Nat.mul_comm _ _
      rw [if_neg h, hvmul]
      have h32q : u32 (m.total_volume * 100 / volume_threshold)
          = m.total_volume * 100 / volume_threshold :=
        Nat.mod_eq_of_lt (lt_trans hlt (by norm_num))
      rw [h32q, Nat.min_eq_right (Nat.le_of_lt hlt)]
  have hsumlt : (if m.total_executed = 0 then 500
        else m.successful * 1000 / m.total_executed)
      + min 100 (m.total_volume * 100 / volume_threshold) < 4294967296 := by
    have hd : m.successful * 1000 / m.total_executed ≤ m.successful * 1000 :=
      Nat.div_le_self _ _
    have hm : min 100 (m.total_volume * 100 / volume_threshold) ≤ 100 :=
      min_le_left _ _
    by_cases h : m.total_executed = 0 <;> simp [h] <;> omega
  have h32sum : u32 ((if m.total_executed = 0 then 500
        else m.successful * 1000 / m.total_executed)
      + min 100 (m.total_volume * 100 / volume_threshold))
      = (if m.total_executed = 0 then 500
         else m.successful * 1000 / m.total_executed)
        + min 100 (m.total_volume * 100 / volume_threshold) :=
    Nat.mod_eq_of_lt hsumlt
  refine ⟨?_, rfl, ?_⟩
  · simp only [calculate_reputation]
    rw [hsr, hvb, h32sum]
    generalize ((if m.total_executed = 0 then 500
        else m.successful * 1000 / m.total_executed)
        + min 100 (m.total_volume * 100 / volume_threshold)) = n
    rcases le_or_lt n 1000 with h | h
    · rw [if_neg (by omega), Nat.min_eq_right h]
    · rw [if_pos (by omega), Nat.min_eq_left (by omega)]
  · simp only [calculate_reputation]
    simp [Bool.and_eq_true, decide_eq_true_eq]

/-- Witness for C9 (amended): a solver with 9 successes out of 10 and
volume 500 against threshold 1000 — inside the exact-arithmetic domain —
scores 900 + 50 = 950 and is not high-value eligible. -/
theorem calculate_reputation_spec_witness :
    (calculate_reputation ⟨10, 9, 1, 500⟩ 1000).score = 950
    ∧ (calculate_reputation ⟨10, 9, 1, 500⟩ 1000).tier = 5
    ∧ (calculate_reputation ⟨10, 9, 1, 500⟩ 1000).high_value_eligible
        = false := by
  have h := calculate_reputation_spec ⟨10, 9, 1, 500⟩ 1000
    (by norm_num) (by norm_num) (by norm_num) (by norm_num)
  refine ⟨?_, by decide, by decide⟩
  rw [h.1]
  decide

/-- C10: a freshly registered solver starts with `reputation_score = 100`,
`is_active = true`, and all four activity counters at zero, on both hosts;
the successful NEAR call installs exactly that record. -/
theorem register_solver_initial_state :
    (∀ (s : NearState) (caller : String) (stake : Nat)
        (chains : List Chain) (now : Nat),
        s.min_solver_stake ≤ stake → s.solvers caller = none → chains ≠ [] →
        near_register_solver s caller stake chains now
            = .ok ({ s with
                      solvers := upd s.solvers caller
                          (newNearSolver caller stake chains now)
                      active_solvers := s.active_solvers ++ [caller] }, [])
          ∧ (newNearSolver caller stake chains now).reputation_score = 100
          ∧ (newNearSolver caller stake chains now).is_active = true
          ∧ (newNearSolver caller stake chains now).total_intents_executed = 0
          ∧ (newNearSolver caller stake chains now).successful_intents = 0
          ∧ (newNearSolver caller stake chains now).failed_intents = 0
          ∧ (newNearSolver caller stake chains now).total_volume = 0)
    ∧ (∀ (user lamports supported_chains min_solver_stake : Nat) (now : Int),
        0 < supported_chains → min_solver_stake ≤ lamports →
        ∃ r, sol_register_solver user lamports supported_chains
                min_solver_stake now = .ok r
          ∧ r.reputation_score = 100 ∧ r.is_active = true
          ∧ r.total_intents_executed = 0 ∧ r.successful_intents = 0
          ∧ r.failed_intents = 0 ∧ r.total_volume = 0) := by
  constructor
  · intro s caller stake chains now hstake hnone hchains
    refine ⟨?_, rfl, rfl, rfl, rfl, rfl, rfl⟩
    simp [near_register_solver, hstake, hnone, hchains]
  · intro user lamports supported_chains min_solver_stake now hchains hstake
    refine ⟨{ solver_id := user
              supported_chains := supported_chains
              stake := min_solver_stake
              reputation_score := 100
              total_intents_executed := 0
              successful_intents := 0
              failed_intents := 0
              total_volume := 0
              is_active := true
              registered_at := now },
            ?_, rfl, rfl, rfl, rfl, rfl, rfl⟩
    simp [sol_register_solver, hchains, hstake]

/-- Witness for C10 at a concrete registration against the fresh
contract. -/
theorem register_solver_initial_state_witness :
    resIsOk (near_register_solver (nearInit "own" 1000 250) "sv" 1000
        [Chain.Near] 0) = true
    ∧ (newNearSolver "sv" 1000 [Chain.Near] 0).reputation_score = 100
    ∧ (newNearSolver "sv" 1000 [Chain.Near] 0).is_active = true := by
  have h := register_solver_initial_state.1 (nearInit "own" 1000 250)
    "sv" 1000 [Chain.Near] 0 (by decide) rfl (by decide)
  exact ⟨by rw [h.1]; rfl, h.2.1, h.2.2.1⟩
